import Mathlib

/-!
Shallow embedding of `src/mongo-connect.ts` from the mongo-connect-next
repository: a connection-lifecycle cache (`connectMongo`, `disconnectMongo`,
`getConnectionStatus`) over a process-wide `Map<string, {conn, promise}>`.

External calls (the mongoose driver's `connect` and `disconnect`) are opaque
collaborators: we model their outcomes with an explicit oracle (`World`,
`DiscWorld`).  Connection handles and in-flight promises are identified by
natural numbers.  All registry mutations performed by a call are recorded in
order as a `trace` of registry snapshots, since every mutation in the source
is a synchronous step between `await` suspension points and hence observable
by interleaved callers.
-/

namespace MongoConnect

/-- One entry of `global._mongoConnections`:
`{ conn: Mongoose | null; promise: Promise<Mongoose> | null }`. -/
structure ConnRecord where
  conn : Option Nat
  promise : Option Nat
deriving DecidableEq, Repr

/-- The global `Map<string, ConnRecord>` as an insertion-ordered
association list (JS `Map` preserves insertion order). -/
abbrev Registry := List (String × ConnRecord)

/-- `Map.prototype.get`. -/
def regGet : Registry → String → Option ConnRecord
  | [], _ => none
  | e :: rest, k => if e.1 = k then some e.2 else regGet rest k

/-- `Map.prototype.set`: replace in place when the key exists, else append. -/
def regSet : Registry → String → ConnRecord → Registry
  | [], k, v => [(k, v)]
  | e :: rest, k, v => if e.1 = k then (k, v) :: rest else e :: regSet rest k v

/-- `Map.prototype.delete`. -/
def regDelete : Registry → String → Registry
  | [], _ => []
  | e :: rest, k => if e.1 = k then rest else e :: regDelete rest k

/-- `ConnectOptions` from `src/types`: `{ uri?, dbName?, multiDb? }`. -/
structure ConnectOptions where
  uri : Option String
  dbName : Option String
  multiDb : Option Bool
deriving DecidableEq, Repr

/-- JS truthiness of a possibly-absent string (`undefined` and `""` are falsy). -/
def truthy : Option String → Bool
  | some s => s ≠ ""
  | none => false

/-- `a || b` on strings where `b` is a literal default, as in
`options?.dbName || "multi_default"`. -/
def jsOrStr (a : Option String) (b : String) : String :=
  match a with
  | some s => if s = "" then b else s
  | none => b

/-- `const uri = options?.uri || process.env.MONGODB_URI` (line 178). -/
def resolveUri (opts : Option ConnectOptions) (env : Option String) : Option String :=
  if truthy (opts.bind fun o => o.uri) then opts.bind fun o => o.uri else env

/-- `const isMultiDbMode = options?.multiDb || false` (line 188). -/
def isMultiDbMode (opts : Option ConnectOptions) : Bool :=
  (opts.bind fun o => o.multiDb).getD false

/-- Key derivation (lines 189-191):
`isMultiDbMode ? options?.dbName || "multi_default" : "single_default"`. -/
def deriveKey (opts : Option ConnectOptions) : String :=
  if isMultiDbMode opts then jsOrStr (opts.bind fun o => o.dbName) "multi_default"
  else "single_default"

/-- The message of the `Error` thrown when no URI resolves (lines 181-184). -/
def configErrorMessage : String :=
  "MongoDB URI not provided. Set MONGODB_URI in .env file or pass as parameter"

/-- The wrapped message re-thrown on connect failure (lines 273-277). -/
def wrapMessage (dbKey msg : String) : String :=
  "Failed to connect to MongoDB for " ++ dbKey ++ ": " ++ msg

/-- Settlement of an awaited external promise. -/
inductive ConnectOutcome where
  | ok (handle : Nat)
  | err (msg : String)
deriving DecidableEq, Repr

/-- What a call to `connectMongo` returns to its caller: a resolved handle, or
a thrown `Error` identified by its message. -/
inductive CallResult where
  | ok (handle : Nat)
  | thrown (msg : String)
deriving DecidableEq, Repr

/-- Awaiting a stored promise hands its settlement through unchanged. -/
def outcomeResult : ConnectOutcome → CallResult
  | .ok h => .ok h
  | .err m => .thrown m

/-- Oracle for the external collaborators during one `connectMongo` call:
the settlement of a freshly started `mongoose.connect`, the settlement of an
already-cached in-flight promise (if this call awaits one), and whether a
`conn.disconnect()` issued by this call rejects (with which message). -/
structure World where
  connect : ConnectOutcome
  pending : ConnectOutcome
  disconnectErr : Option String
deriving DecidableEq, Repr

/-- Everything observable about one `connectMongo` call: the value returned or
error thrown, the final registry, the registry after each mutation in order,
how many times `mongoose.connect` was invoked, how many times `disconnect`
was invoked, the teardown errors swallowed by the `catch` at lines 210-212,
and whether the call joined an existing pending promise. -/
structure AcquireResult where
  result : CallResult
  registry : Registry
  trace : List Registry
  connectCalls : Nat
  disconnectCalls : Nat
  teardownFailures : List String
  awaitedPending : Bool
deriving DecidableEq, Repr

/-- `connectMongo` (src/mongo-connect.ts lines 174-279), big-step, with the
external outcomes supplied by `w` and the fresh promise identity by `fresh`. -/
def connectMongo (opts : Option ConnectOptions) (env : Option String)
    (w : World) (fresh : Nat) (reg : Registry) : AcquireResult :=
  let uri := resolveUri opts env
  if ¬ truthy uri then
    -- lines 180-185: throw before any registry access
    ⟨.thrown configErrorMessage, reg, [], 0, 0, [], false⟩
  else
    let multi := isMultiDbMode opts
    let dbKey := deriveKey opts
    let existing := regGet reg dbKey
    if ¬ multi ∧ (existing.bind fun r => r.conn).isSome then
      -- lines 197-199: single mode reuse
      ⟨.ok ((existing.bind fun r => r.conn).getD 0), reg, [], 0, 0, [], false⟩
    else if ¬ multi ∧ (existing.bind fun r => r.promise).isSome then
      -- lines 202-204: await the shared in-flight promise
      ⟨outcomeResult w.pending, reg, [], 0, 0, [], true⟩
    else
      -- lines 207-214: multi mode teardown of an existing handle
      let tempRes :=
        if multi ∧ (existing.bind fun r => r.conn).isSome then
          let r1 := regSet reg dbKey ⟨none, none⟩
          (r1, [r1], 1, w.disconnectErr.toList)
        else (reg, ([] : List Registry), 0, ([] : List String))
      let reg1 := tempRes.1
      let trace1 := tempRes.2.1
      let dcalls := tempRes.2.2.1
      let tfails := tempRes.2.2.2
      -- line 231: const connectionPromise = mongoose.connect(uri, ...)
      -- lines 234-237: publish the pending promise before awaiting
      let reg2 := regSet reg1 dbKey ⟨none, some fresh⟩
      match w.connect with
      | .ok h =>
        -- lines 241-245: store conn, clear promise, in one set
        let reg3 := regSet reg2 dbKey ⟨some h, none⟩
        ⟨.ok h, reg3, trace1 ++ [reg2, reg3], 1, dcalls, tfails, false⟩
      | .err m =>
        -- lines 267-277: reset the record and re-throw wrapped
        let reg3 := regSet reg2 dbKey ⟨none, none⟩
        ⟨.thrown (wrapMessage dbKey m), reg3, trace1 ++ [reg2, reg3], 1, dcalls, tfails, false⟩

/-- Oracle for `disconnectMongo`: for each key, whether
`connection.conn.disconnect()` rejects (with which message). -/
structure DiscWorld where
  disc : String → Option String

/-- Everything observable about one `disconnectMongo` call. -/
structure DiscResult where
  ok : Bool
  thrownMsg : Option String
  registry : Registry
  disconnected : List String
deriving DecidableEq, Repr

/-- The keys whose entries hold a live connection, in map order
(lines 295-296: `entries().filter(([, c]) => c?.conn)`). -/
def connKeys (reg : Registry) : List String :=
  (reg.filter fun e => e.2.conn.isSome).map fun e => e.1

/-- `disconnectMongo` (src/mongo-connect.ts lines 285-307).  With a key:
`await conn.disconnect()` has no surrounding try/catch, so a rejection
propagates and the `delete` never runs.  Without a key: every conn-holding
entry is disconnected and the results joined with `Promise.all`; if any
rejects, `Promise.all` rejects and `clear()` never runs. -/
def disconnectMongo (dbKey? : Option String) (w : DiscWorld) (reg : Registry) :
    DiscResult :=
  match dbKey? with
  | some dbKey =>
    match (regGet reg dbKey).bind fun r => r.conn with
    | some _ =>
      match w.disc dbKey with
      | none => ⟨true, none, regDelete reg dbKey, [dbKey]⟩
      | some m => ⟨false, some m, reg, [dbKey]⟩
    | none => ⟨true, none, reg, []⟩
  | none =>
    let keys := connKeys reg
    match keys.findSome? w.disc with
    | some m => ⟨false, some m, reg, keys⟩
    | none => ⟨true, none, [], keys⟩

/-- `ConnectionStatus` returned by `getConnectionStatus`. -/
structure ConnectionStatus where
  connected : Bool
  connecting : Bool
  key : Option String
deriving DecidableEq, Repr

/-- `getConnectionStatus` (src/mongo-connect.ts lines 314-339). -/
def getConnectionStatus (dbKey? : Option String) (reg : Registry) :
    ConnectionStatus :=
  match dbKey? with
  | some dbKey =>
    let c := regGet reg dbKey
    ⟨(c.bind fun r => r.conn).isSome, (c.bind fun r => r.promise).isSome, some dbKey⟩
  | none =>
    ⟨reg.any fun e => e.2.conn.isSome, reg.any fun e => e.2.promise.isSome, none⟩

/-- The registry invariant from the spec's data model: a record never holds a
live `conn` and a live `promise` at the same time. -/
def recordOk (r : ConnRecord) : Bool :=
  !(r.conn.isSome && r.promise.isSome)

/-- `recordOk` holds of every entry of the registry. -/
def registryOk (reg : Registry) : Bool :=
  reg.all fun e => recordOk e.2

/-- One mutating operation against the registry, with its external outcomes. -/
inductive RegOp where
  | acquire (opts : Option ConnectOptions) (env : Option String) (w : World) (fresh : Nat)
  | release (k : Option String) (w : DiscWorld)

/-- Run one operation: final registry plus the observable snapshots it wrote. -/
def applyOp : RegOp → Registry → Registry × List Registry
  | .acquire o e w f, reg =>
    let r := connectMongo o e w f reg
    (r.registry, r.trace)
  | .release k w, reg =>
    let r := disconnectMongo k w reg
    (r.registry, [r.registry])

/-- Run a sequence of operations from a starting registry, collecting every
observable registry snapshot along the way. -/
def runOps : List RegOp → Registry → Registry × List Registry
  | [], reg => (reg, [])
  | op :: ops, reg =>
    let p := applyOp op reg
    let q := runOps ops p.1
    (q.1, p.2 ++ q.2)

/-! ### Helper lemmas -/

theorem regGet_regSet_self (reg : Registry) (k : String) (v : ConnRecord) :
    regGet (regSet reg k v) k = some v := by
  induction reg with
  | nil => simp [regSet, regGet]
  | cons e rest ih =>
    by_cases h : e.1 = k
    · simp [regSet, regGet, h]
    · simp [regSet, regGet, h, ih]

theorem registryOk_regSet {reg : Registry} {v : ConnRecord} (k : String)
    (hreg : registryOk reg = true) (hv : recordOk v = true) :
    registryOk (regSet reg k v) = true := by
  induction reg with
  | nil => simp [regSet, registryOk, List.all, hv]
  | cons e rest ih =>
    simp only [registryOk, List.all_cons, Bool.and_eq_true] at hreg
    by_cases h : e.1 = k
    · simp [regSet, h, registryOk, hv, hreg.2]
    · have := ih hreg.2
      simp only [regSet, if_neg h, registryOk, List.all_cons, Bool.and_eq_true]
      exact ⟨hreg.1, this⟩

theorem registryOk_regDelete {reg : Registry} (k : String)
    (hreg : registryOk reg = true) :
    registryOk (regDelete reg k) = true := by
  induction reg with
  | nil => simpa [regDelete] using hreg
  | cons e rest ih =>
    simp only [registryOk, List.all_cons, Bool.and_eq_true] at hreg
    by_cases h : e.1 = k
    · simpa [regDelete, h, registryOk] using hreg.2
    · have := ih hreg.2
      simp only [regDelete, if_neg h, registryOk, List.all_cons, Bool.and_eq_true]
      exact ⟨hreg.1, this⟩

theorem deriveKey_of_single {opts : Option ConnectOptions}
    (h : isMultiDbMode opts = false) : deriveKey opts = "single_default" := by
  simp [deriveKey, h]

theorem connectMongo_config {opts : Option ConnectOptions} {env : Option String}
    (w : World) (fresh : Nat) (reg : Registry)
    (h1 : truthy (resolveUri opts env) = false) :
    connectMongo opts env w fresh reg =
      ⟨.thrown configErrorMessage, reg, [], 0, 0, [], false⟩ := by
  simp [connectMongo, h1]

theorem connectMongo_single_reuse {opts : Option ConnectOptions} {env : Option String}
    (w : World) (fresh : Nat) (reg : Registry) {h : Nat}
    (h1 : truthy (resolveUri opts env) = true)
    (h2 : isMultiDbMode opts = false)
    (h3 : ((regGet reg "single_default").bind fun r => r.conn) = some h) :
    connectMongo opts env w fresh reg = ⟨.ok h, reg, [], 0, 0, [], false⟩ := by
  simp [connectMongo, h1, h2, deriveKey_of_single h2, h3]

theorem connectMongo_single_join {opts : Option ConnectOptions} {env : Option String}
    (w : World) (fresh : Nat) (reg : Registry) {p : Nat}
    (h1 : truthy (resolveUri opts env) = true)
    (h2 : isMultiDbMode opts = false)
    (h3 : regGet reg "single_default" = some ⟨none, some p⟩) :
    connectMongo opts env w fresh reg =
      ⟨outcomeResult w.pending, reg, [], 0, 0, [], true⟩ := by
  simp [connectMongo, h1, h2, deriveKey_of_single h2, h3]

theorem connectMongo_multi_teardown {opts : Option ConnectOptions} {env : Option String}
    (w : World) (fresh : Nat) (reg : Registry) {h : Nat}
    (h1 : truthy (resolveUri opts env) = true)
    (h2 : isMultiDbMode opts = true)
    (h3 : regGet reg (deriveKey opts) = some ⟨some h, none⟩) :
    (connectMongo opts env w fresh reg).disconnectCalls = 1 ∧
    (connectMongo opts env w fresh reg).connectCalls = 1 ∧
    (connectMongo opts env w fresh reg).trace.head? =
      some (regSet reg (deriveKey opts) ⟨none, none⟩) ∧
    (connectMongo opts env w fresh reg).teardownFailures = w.disconnectErr.toList := by
  cases hc : w.connect <;>
    simp [connectMongo, h1, h2, h3, hc]

theorem connectMongo_fresh {opts : Option ConnectOptions} {env : Option String}
    (w : World) (fresh : Nat) (reg : Registry)
    (h1 : truthy (resolveUri opts env) = true)
    (h3 : regGet reg (deriveKey opts) = some ⟨none, none⟩ ∨
          regGet reg (deriveKey opts) = none) :
    (connectMongo opts env w fresh reg).connectCalls = 1 := by
  cases h2 : isMultiDbMode opts with
  | false =>
    rw [deriveKey_of_single h2] at h3
    rcases h3 with h3 | h3 <;> cases hc : w.connect <;>
      simp [connectMongo, h1, h2, h3, hc, deriveKey_of_single h2]
  | true =>
    rcases h3 with h3 | h3 <;> cases hc : w.connect <;>
      simp [connectMongo, h1, h2, h3, hc]

theorem connectMongo_failure {opts : Option ConnectOptions} {env : Option String}
    {w : World} (fresh : Nat) (reg : Registry) {m : String}
    (h1 : truthy (resolveUri opts env) = true)
    (hc : w.connect = .err m)
    (hcalls : (connectMongo opts env w fresh reg).connectCalls = 1) :
    (connectMongo opts env w fresh reg).result =
      .thrown (wrapMessage (deriveKey opts) m) ∧
    regGet (connectMongo opts env w fresh reg).registry (deriveKey opts) =
      some ⟨none, none⟩ := by
  by_cases hm : isMultiDbMode opts = true
  · by_cases hcn : ((regGet reg (deriveKey opts)).bind fun r => r.conn).isSome
    · simp [connectMongo, h1, hm, hc, hcn, regGet_regSet_self]
    · simp [connectMongo, h1, hm, hc, hcn, regGet_regSet_self]
  · rw [Bool.not_eq_true] at hm
    by_cases hcn : ((regGet reg "single_default").bind fun r => r.conn).isSome
    · exfalso
      obtain ⟨h, hh⟩ := Option.isSome_iff_exists.mp hcn
      rw [connectMongo_single_reuse w fresh reg h1 hm hh] at hcalls
      simp at hcalls
    · by_cases hpr : ((regGet reg "single_default").bind fun r => r.promise).isSome
      · exfalso
        rcases hg : regGet reg "single_default" with _ | ⟨⟨cn, pr⟩⟩
        · rw [hg] at hpr; simp at hpr
        · rw [hg] at hpr hcn
          cases pr with
          | none => simp at hpr
          | some p =>
            cases cn with
            | some c => simp at hcn
            | none =>
              rw [connectMongo_single_join w fresh reg h1 hm hg] at hcalls
              simp at hcalls
      · simp [connectMongo, h1, hm, deriveKey_of_single hm, hcn, hpr, hc,
          regGet_regSet_self]

theorem connectMongo_registryOk (opts : Option ConnectOptions) (env : Option String)
    (w : World) (fresh : Nat) (reg : Registry) (hreg : registryOk reg = true) :
    registryOk (connectMongo opts env w fresh reg).registry = true ∧
    (connectMongo opts env w fresh reg).trace.all registryOk = true := by
  obtain ⟨wc, wp, wd⟩ := w
  cases wc <;>
  · simp only [connectMongo]
    split_ifs <;>
      refine ⟨?_, ?_⟩ <;>
        simp only [List.all_cons, List.all_nil, List.all_append,
          Bool.and_eq_true, and_true] <;>
          (repeat first
            | exact hreg
            | rfl
            | constructor
            | refine registryOk_regSet _ ?_ rfl)

theorem disconnectMongo_registryOk (k? : Option String) (w : DiscWorld)
    (reg : Registry) (hreg : registryOk reg = true) :
    registryOk (disconnectMongo k? w reg).registry = true := by
  cases k? with
  | none =>
    cases h : (connKeys reg).findSome? w.disc with
    | some m =>
      simp only [disconnectMongo]
      rw [h]
      exact hreg
    | none =>
      simp only [disconnectMongo]
      rw [h]
      rfl
  | some k =>
    cases hc : (regGet reg k).bind (fun r => r.conn) with
    | none => simp [disconnectMongo, hc, hreg]
    | some c =>
      cases hd : w.disc k <;>
        simp [disconnectMongo, hc, hd, hreg, registryOk_regDelete]

theorem runOps_registryOk : ∀ (ops : List RegOp) (reg : Registry),
    registryOk reg = true →
    registryOk (runOps ops reg).1 = true ∧ (runOps ops reg).2.all registryOk = true
  | [], _, h => ⟨h, rfl⟩
  | op :: ops, reg, h => by
    cases op with
    | acquire o e w f =>
      have hc := connectMongo_registryOk o e w f reg h
      have ih := runOps_registryOk ops (connectMongo o e w f reg).registry hc.1
      simp [runOps, applyOp, List.all_append, hc.1, hc.2, ih.1, ih.2]
    | release k w =>
      have hd := disconnectMongo_registryOk k w reg h
      have ih := runOps_registryOk ops (disconnectMongo k w reg).registry hd
      simp [runOps, applyOp, List.all_append, hd, ih.1, ih.2]

/-! ### Claim theorems -/

/-- C9 counterexample: the claim says the multi-mode key is "the supplied
dbName, or the fallback constant when dbName is absent".  With the supplied
dbName `""` (present, but falsy in JS), the code derives the fallback key
`"multi_default"`, not the supplied name. -/
theorem C9_empty_dbname_cex :
    ((some ⟨none, some "", some true⟩ : Option ConnectOptions).bind
      fun o => o.dbName) = some "" ∧
    isMultiDbMode (some ⟨none, some "", some true⟩) = true ∧
    deriveKey (some ⟨none, some "", some true⟩) = "multi_default" ∧
    "multi_default" ≠ "" := by
  refine ⟨rfl, rfl, rfl, by decide⟩

/-- C9 (amended): the connection key is `"single_default"` whenever multi
mode is off, regardless of dbName; in multi mode it is the supplied dbName
when that is non-empty, and the fallback `"multi_default"` when dbName is
absent or empty. -/
theorem C9_key_derivation (opts : Option ConnectOptions) :
    (isMultiDbMode opts = false → deriveKey opts = "single_default") ∧
    (∀ s : String, isMultiDbMode opts = true →
      (opts.bind fun o => o.dbName) = some s → s ≠ "" → deriveKey opts = s) ∧
    (isMultiDbMode opts = true →
      ((opts.bind fun o => o.dbName) = none ∨
       (opts.bind fun o => o.dbName) = some "") →
      deriveKey opts = "multi_default") := by
  refine ⟨fun h => deriveKey_of_single h, ?_, ?_⟩
  · intro s hm hd hs
    simp [deriveKey, hm, jsOrStr, hd, hs]
  · intro hm hd
    rcases hd with hd | hd <;> simp [deriveKey, hm, jsOrStr, hd]

/-- Witness for C9 at concrete options. -/
theorem C9_key_derivation_witness :
    deriveKey (some ⟨none, some "ignored", some false⟩) = "single_default" ∧
    deriveKey (some ⟨none, some "users", some true⟩) = "users" ∧
    deriveKey (some ⟨none, none, some true⟩) = "multi_default" :=
  ⟨(C9_key_derivation (some ⟨none, some "ignored", some false⟩)).1 rfl,
   (C9_key_derivation (some ⟨none, some "users", some true⟩)).2.1 "users" rfl rfl
     (by decide),
   (C9_key_derivation (some ⟨none, none, some true⟩)).2.2 rfl (Or.inl rfl)⟩

/-- C5: when no URI resolves from the options or the environment,
`connectMongo` throws the configuration error, performs no registry
mutation, invokes neither connect nor disconnect, and every subsequent
status observation is unchanged. -/
theorem C5_missing_uri_no_mutation (opts : Option ConnectOptions)
    (env : Option String) (w : World) (fresh : Nat) (reg : Registry)
    (h1 : truthy (resolveUri opts env) = false) :
    connectMongo opts env w fresh reg =
      ⟨.thrown configErrorMessage, reg, [], 0, 0, [], false⟩ ∧
    ∀ k : Option String,
      getConnectionStatus k (connectMongo opts env w fresh reg).registry =
        getConnectionStatus k reg := by
  have h := connectMongo_config w fresh reg h1
  exact ⟨h, fun k => by rw [h]⟩

/-- Witness for C5: no `uri` option and no environment default. -/
theorem C5_missing_uri_no_mutation_witness :
    connectMongo none none ⟨.ok 5, .ok 9, none⟩ 1 [("a", ⟨some 3, none⟩)] =
      ⟨.thrown configErrorMessage, [("a", ⟨some 3, none⟩)], [], 0, 0, [], false⟩ ∧
    getConnectionStatus (some "a")
        (connectMongo none none ⟨.ok 5, .ok 9, none⟩ 1
          [("a", ⟨some 3, none⟩)]).registry =
      getConnectionStatus (some "a") [("a", ⟨some 3, none⟩)] := by
  have h := C5_missing_uri_no_mutation none none ⟨.ok 5, .ok 9, none⟩ 1
    [("a", ⟨some 3, none⟩)] rfl
  exact ⟨h.1, h.2 (some "a")⟩

/-- C10: the URI check precedes the cache lookup: with no resolvable URI the
call throws the configuration error even when an established handle is
cached for the derived key, instead of returning that handle. -/
theorem C10_uri_check_precedes_cache (opts : Option ConnectOptions)
    (env : Option String) (w : World) (fresh : Nat) (reg : Registry) (h : Nat)
    (h1 : truthy (resolveUri opts env) = false)
    (h3 : regGet reg (deriveKey opts) = some ⟨some h, none⟩) :
    (connectMongo opts env w fresh reg).result = .thrown configErrorMessage ∧
    (connectMongo opts env w fresh reg).result ≠ .ok h := by
  rw [connectMongo_config w fresh reg h1]
  exact ⟨rfl, by simp⟩

/-- Witness for C10: handle 7 cached under the single key, yet the call with
no URI throws. -/
theorem C10_uri_check_precedes_cache_witness :
    (connectMongo none none ⟨.ok 5, .ok 9, none⟩ 1
      [("single_default", ⟨some 7, none⟩)]).result = .thrown configErrorMessage ∧
    (connectMongo none none ⟨.ok 5, .ok 9, none⟩ 1
      [("single_default", ⟨some 7, none⟩)]).result ≠ .ok 7 :=
  C10_uri_check_precedes_cache none none ⟨.ok 5, .ok 9, none⟩ 1
    [("single_default", ⟨some 7, none⟩)] 7 rfl rfl

/-- C2 counterexample: "regardless of its other options" fails.  A first
single-mode acquire with an explicit uri succeeds and caches handle 7; a
subsequent single-mode acquire that passes no uri, with no environment
default, throws the configuration error instead of returning the cached
handle. -/
theorem C2_missing_uri_after_success_cex :
    (connectMongo (some ⟨some "mongodb://x", none, some false⟩) none
      ⟨.ok 7, .ok 0, none⟩ 0 []).result = .ok 7 ∧
    (connectMongo none none ⟨.ok 5, .ok 9, none⟩ 1
      (connectMongo (some ⟨some "mongodb://x", none, some false⟩) none
        ⟨.ok 7, .ok 0, none⟩ 0 []).registry).result = .thrown configErrorMessage ∧
    (connectMongo none none ⟨.ok 5, .ok 9, none⟩ 1
      (connectMongo (some ⟨some "mongodb://x", none, some false⟩) none
        ⟨.ok 7, .ok 0, none⟩ 0 []).registry).result ≠ .ok 7 := by
  refine ⟨rfl, rfl, by decide⟩

/-- C2 (amended): after a handle is cached for the single key, every
subsequent single-mode acquire that resolves a URI (from its options or the
environment) returns the cached handle, mutates nothing, and invokes
neither connect nor disconnect. -/
theorem C2_single_reuse (opts : Option ConnectOptions) (env : Option String)
    (w : World) (fresh : Nat) (reg : Registry) (h : Nat)
    (h1 : truthy (resolveUri opts env) = true)
    (h2 : isMultiDbMode opts = false)
    (h3 : ((regGet reg "single_default").bind fun r => r.conn) = some h) :
    connectMongo opts env w fresh reg = ⟨.ok h, reg, [], 0, 0, [], false⟩ :=
  connectMongo_single_reuse w fresh reg h1 h2 h3

/-- Witness for C2: handle 7 cached; a later call with different dbName and a
URI from the environment returns 7 without connecting. -/
theorem C2_single_reuse_witness :
    connectMongo (some ⟨none, some "other", some false⟩) (some "mongodb://env")
        ⟨.ok 5, .ok 9, none⟩ 1 [("single_default", ⟨some 7, none⟩)] =
      ⟨.ok 7, [("single_default", ⟨some 7, none⟩)], [], 0, 0, [], false⟩ :=
  C2_single_reuse (some ⟨none, some "other", some false⟩) (some "mongodb://env")
    ⟨.ok 5, .ok 9, none⟩ 1 [("single_default", ⟨some 7, none⟩)] 7 rfl rfl rfl

/-- C1 counterexample: in multi mode a pending in-flight attempt for the
derived key is ignored rather than awaited: the call starts a second
connect (`connectCalls = 1`) and does not join the pending promise. -/
theorem C1_multi_ignores_pending_cex :
    ((regGet [("a", ⟨none, some 0⟩)]
        (deriveKey (some ⟨some "mongodb://x", some "a", some true⟩))).bind
      fun r => r.promise) = some 0 ∧
    (connectMongo (some ⟨some "mongodb://x", some "a", some true⟩) none
      ⟨.ok 5, .ok 9, none⟩ 1 [("a", ⟨none, some 0⟩)]).connectCalls = 1 ∧
    (connectMongo (some ⟨some "mongodb://x", some "a", some true⟩) none
      ⟨.ok 5, .ok 9, none⟩ 1 [("a", ⟨none, some 0⟩)]).awaitedPending = false := by
  refine ⟨rfl, rfl, rfl⟩

/-- C1 (amended): only in single mode does an acquire that finds a pending
in-flight attempt for its key await that shared result and return its
outcome, with no second connect attempt and no registry mutation; in multi
mode the pending marker is ignored and a fresh attempt is started. -/
theorem C1_pending_join_single (opts : Option ConnectOptions)
    (env : Option String) (w : World) (fresh : Nat) (reg : Registry) (p : Nat)
    (h1 : truthy (resolveUri opts env) = true)
    (h2 : isMultiDbMode opts = false)
    (h3 : regGet reg "single_default" = some ⟨none, some p⟩) :
    connectMongo opts env w fresh reg =
      ⟨outcomeResult w.pending, reg, [], 0, 0, [], true⟩ :=
  connectMongo_single_join w fresh reg h1 h2 h3

/-- Witness for C1: a pending attempt 0 is in flight; the call returns the
pending settlement (handle 9, not the oracle's fresh-connect handle 5) and
starts nothing. -/
theorem C1_pending_join_single_witness :
    connectMongo (some ⟨some "mongodb://x", none, none⟩) none
        ⟨.ok 5, .ok 9, none⟩ 1 [("single_default", ⟨none, some 0⟩)] =
      ⟨.ok 9, [("single_default", ⟨none, some 0⟩)], [], 0, 0, [], true⟩ := by
  have h := C1_pending_join_single (some ⟨some "mongodb://x", none, none⟩) none
    ⟨.ok 5, .ok 9, none⟩ 1 [("single_default", ⟨none, some 0⟩)] 0 rfl rfl rfl
  simpa [outcomeResult] using h

/-- C3: in multi mode, when the derived key holds an established handle and
no pending attempt, the old handle is torn down (one disconnect call), the
record is reset to empty as the first observable mutation, and the new
connect attempt proceeds — for every teardown outcome, a failure being
merely recorded (`teardownFailures` mirrors the oracle's rejection). -/
theorem C3_multi_replacement (opts : Option ConnectOptions) (env : Option String)
    (w : World) (fresh : Nat) (reg : Registry) (h : Nat)
    (h1 : truthy (resolveUri opts env) = true)
    (h2 : isMultiDbMode opts = true)
    (h3 : regGet reg (deriveKey opts) = some ⟨some h, none⟩) :
    (connectMongo opts env w fresh reg).disconnectCalls = 1 ∧
    (connectMongo opts env w fresh reg).connectCalls = 1 ∧
    (connectMongo opts env w fresh reg).trace.head? =
      some (regSet reg (deriveKey opts) ⟨none, none⟩) ∧
    (connectMongo opts env w fresh reg).teardownFailures = w.disconnectErr.toList :=
  connectMongo_multi_teardown w fresh reg h1 h2 h3

/-- Witness for C3: key "a" holds handle 3, the teardown rejects with "boom",
and the new attempt still proceeds. -/
theorem C3_multi_replacement_witness :
    (connectMongo (some ⟨some "u", some "a", some true⟩) none
      ⟨.ok 5, .ok 9, some "boom"⟩ 2 [("a", ⟨some 3, none⟩)]).disconnectCalls = 1 ∧
    (connectMongo (some ⟨some "u", some "a", some true⟩) none
      ⟨.ok 5, .ok 9, some "boom"⟩ 2 [("a", ⟨some 3, none⟩)]).connectCalls = 1 ∧
    (connectMongo (some ⟨some "u", some "a", some true⟩) none
      ⟨.ok 5, .ok 9, some "boom"⟩ 2 [("a", ⟨some 3, none⟩)]).trace.head? =
      some [("a", ⟨none, none⟩)] ∧
    (connectMongo (some ⟨some "u", some "a", some true⟩) none
      ⟨.ok 5, .ok 9, some "boom"⟩ 2 [("a", ⟨some 3, none⟩)]).teardownFailures =
      ["boom"] := by
  obtain ⟨a, b, c, d⟩ := C3_multi_replacement
    (some ⟨some "u", some "a", some true⟩) none ⟨.ok 5, .ok 9, some "boom"⟩ 2
    [("a", ⟨some 3, none⟩)] 3 rfl rfl rfl
  exact ⟨a, b, by rw [c]; rfl, by rw [d]; rfl⟩

/-- C4 counterexample: the failure is not "recorded as the key's error": the
record type holds only `conn` and `promise`, and after a failed attempt the
registry state is exactly the fully reset record, identical for two
different underlying failures — no trace of the error is kept. -/
theorem C4_no_error_recorded_cex :
    (connectMongo (some ⟨some "u", some "a", some true⟩) none
      ⟨.err "auth failed", .ok 0, none⟩ 2 []).registry =
      (connectMongo (some ⟨some "u", some "a", some true⟩) none
        ⟨.err "timeout", .ok 0, none⟩ 2 []).registry ∧
    (connectMongo (some ⟨some "u", some "a", some true⟩) none
      ⟨.err "auth failed", .ok 0, none⟩ 2 []).registry =
      [("a", ⟨none, none⟩)] := by
  refine ⟨rfl, rfl⟩

/-- C4 (amended): for every acquire whose connect attempt fails, the record
for the key is reset to empty (pending cleared; nothing recorded, the
record has no error field), the wrapped connection error is thrown, and any
subsequent acquire for the same key that resolves a URI starts a fresh
connect attempt. -/
theorem C4_failure_clears_and_retries (opts : Option ConnectOptions)
    (env : Option String) (w : World) (fresh : Nat) (reg : Registry) (m : String)
    (h1 : truthy (resolveUri opts env) = true)
    (hc : w.connect = .err m)
    (hcalls : (connectMongo opts env w fresh reg).connectCalls = 1) :
    (connectMongo opts env w fresh reg).result =
      .thrown (wrapMessage (deriveKey opts) m) ∧
    regGet (connectMongo opts env w fresh reg).registry (deriveKey opts) =
      some ⟨none, none⟩ ∧
    ∀ (opts2 : Option ConnectOptions) (env2 : Option String) (w2 : World)
      (fresh2 : Nat),
      deriveKey opts2 = deriveKey opts →
      truthy (resolveUri opts2 env2) = true →
      (connectMongo opts2 env2 w2 fresh2
        (connectMongo opts env w fresh reg).registry).connectCalls = 1 := by
  obtain ⟨hres, hreg⟩ := connectMongo_failure fresh reg h1 hc hcalls
  refine ⟨hres, hreg, ?_⟩
  intro opts2 env2 w2 fresh2 hk h1b
  exact connectMongo_fresh w2 fresh2 _ h1b (Or.inl (by rw [hk]; exact hreg))

/-- Witness for C4: a failed multi-mode attempt for "a" throws the wrapped
error, resets the record, and a retry with the same options connects. -/
theorem C4_failure_clears_and_retries_witness :
    (connectMongo (some ⟨some "u", some "a", some true⟩) none
      ⟨.err "refused", .ok 0, none⟩ 2 []).result =
      .thrown (wrapMessage (deriveKey (some ⟨some "u", some "a", some true⟩))
        "refused") ∧
    regGet (connectMongo (some ⟨some "u", some "a", some true⟩) none
        ⟨.err "refused", .ok 0, none⟩ 2 []).registry
      (deriveKey (some ⟨some "u", some "a", some true⟩)) = some ⟨none, none⟩ ∧
    (connectMongo (some ⟨some "u", some "a", some true⟩) none ⟨.ok 5, .ok 0, none⟩ 3
      (connectMongo (some ⟨some "u", some "a", some true⟩) none
        ⟨.err "refused", .ok 0, none⟩ 2 []).registry).connectCalls = 1 := by
  obtain ⟨a, b, c⟩ := C4_failure_clears_and_retries
    (some ⟨some "u", some "a", some true⟩) none ⟨.err "refused", .ok 0, none⟩ 2 []
    "refused" rfl rfl rfl
  exact ⟨a, b, c (some ⟨some "u", some "a", some true⟩) none ⟨.ok 5, .ok 0, none⟩ 3
    rfl rfl⟩

/-- C6 counterexample: with a live handle for "a" whose teardown rejects,
`disconnectMongo("a")` propagates the rejection (not best-effort) and the
entry is NOT removed from the map. -/
theorem C6_teardown_failure_fatal_cex :
    (disconnectMongo (some "a") ⟨fun _ => some "dfail"⟩
      [("a", ⟨some 3, none⟩)]).ok = false ∧
    (disconnectMongo (some "a") ⟨fun _ => some "dfail"⟩
      [("a", ⟨some 3, none⟩)]).registry = [("a", ⟨some 3, none⟩)] := by
  refine ⟨rfl, rfl⟩

/-- C6 (amended): `disconnectMongo(key)` with a live handle invokes the
external teardown and removes the entry only when the teardown succeeds; a
teardown rejection propagates to the caller and leaves the entry in place.
With no live handle for the key it is a no-op. -/
theorem C6_release_key :
    (∀ (reg : Registry) (k : String) (w : DiscWorld) (h : Nat),
      ((regGet reg k).bind fun r => r.conn) = some h →
        disconnectMongo (some k) w reg =
          match w.disc k with
          | none => ⟨true, none, regDelete reg k, [k]⟩
          | some m => ⟨false, some m, reg, [k]⟩) ∧
    (∀ (reg : Registry) (k : String) (w : DiscWorld),
      ((regGet reg k).bind fun r => r.conn) = none →
        disconnectMongo (some k) w reg = ⟨true, none, reg, []⟩) := by
  constructor
  · intro reg k w h hc
    cases hd : w.disc k <;> simp [disconnectMongo, hc, hd]
  · intro reg k w hc
    simp [disconnectMongo, hc]

/-- Witness for C6: successful teardown removes "a"; a key with no live
handle is a no-op. -/
theorem C6_release_key_witness :
    disconnectMongo (some "a") ⟨fun _ => none⟩ [("a", ⟨some 3, none⟩)] =
      ⟨true, none, [], ["a"]⟩ ∧
    disconnectMongo (some "b") ⟨fun _ => none⟩ [("a", ⟨some 3, none⟩)] =
      ⟨true, none, [("a", ⟨some 3, none⟩)], []⟩ := by
  constructor
  · have h := C6_release_key.1 [("a", ⟨some 3, none⟩)] "a" ⟨fun _ => none⟩ 3 rfl
    simpa using h
  · exact C6_release_key.2 [("a", ⟨some 3, none⟩)] "b" ⟨fun _ => none⟩ rfl

/-- C7 counterexample: with one live handle whose teardown rejects,
`disconnectMongo()` propagates the rejection and the map is NOT cleared —
the claim's "then clears the entire map" fails on a teardown failure. -/
theorem C7_release_all_failure_cex :
    (disconnectMongo none ⟨fun _ => some "dfail"⟩
      [("a", ⟨some 3, none⟩)]).ok = false ∧
    (disconnectMongo none ⟨fun _ => some "dfail"⟩
      [("a", ⟨some 3, none⟩)]).registry = [("a", ⟨some 3, none⟩)] := by
  refine ⟨rfl, rfl⟩

/-- C7 (amended): `disconnectMongo()` with no key tears down exactly the
entries holding a live handle; when every teardown succeeds it clears the
whole map (including promise-only entries); on an empty registry it is a
no-op; and a second call right after a fully successful one is again a
no-op on the now-empty registry. -/
theorem C7_release_all :
    (∀ (reg : Registry) (w : DiscWorld),
      (∀ k ∈ connKeys reg, w.disc k = none) →
        disconnectMongo none w reg = ⟨true, none, [], connKeys reg⟩) ∧
    (∀ w : DiscWorld, disconnectMongo none w [] = ⟨true, none, [], []⟩) ∧
    (∀ (reg : Registry) (w w2 : DiscWorld),
      (∀ k ∈ connKeys reg, w.disc k = none) →
        disconnectMongo none w2 (disconnectMongo none w reg).registry =
          ⟨true, none, [], []⟩) := by
  have base : ∀ (reg : Registry) (w : DiscWorld),
      (∀ k ∈ connKeys reg, w.disc k = none) →
      disconnectMongo none w reg = ⟨true, none, [], connKeys reg⟩ := by
    intro reg w hall
    have hn : (connKeys reg).findSome? w.disc = none :=
      List.findSome?_eq_none_iff.mpr hall
    simp [disconnectMongo, hn]
  refine ⟨base, ?_, ?_⟩
  · intro w
    simpa [connKeys] using base [] w (by simp [connKeys])
  · intro reg w w2 hall
    rw [base reg w hall]
    simpa [connKeys] using base [] w2 (by simp [connKeys])

/-- Witness for C7: two entries, one live handle, all teardowns succeed; the
map is fully cleared and a second call is a clean no-op. -/
theorem C7_release_all_witness :
    disconnectMongo none ⟨fun _ => none⟩
      [("a", ⟨some 3, none⟩), ("c", ⟨none, some 1⟩)] = ⟨true, none, [], ["a"]⟩ ∧
    disconnectMongo none ⟨fun _ => none⟩ [] = ⟨true, none, [], []⟩ ∧
    disconnectMongo none ⟨fun _ => none⟩
      (disconnectMongo none ⟨fun _ => none⟩
        [("a", ⟨some 3, none⟩), ("c", ⟨none, some 1⟩)]).registry =
      ⟨true, none, [], []⟩ := by
  refine ⟨?_, C7_release_all.2.1 ⟨fun _ => none⟩, ?_⟩
  · simpa using C7_release_all.1
      [("a", ⟨some 3, none⟩), ("c", ⟨none, some 1⟩)] ⟨fun _ => none⟩
      (fun k _ => rfl)
  · exact C7_release_all.2.2
      [("a", ⟨some 3, none⟩), ("c", ⟨none, some 1⟩)] ⟨fun _ => none⟩
      ⟨fun _ => none⟩ (fun k _ => rfl)

/-- C8: starting from the empty registry, after any sequence of acquire and
release operations (with any external outcomes), every observable registry
snapshot — including each intermediate state written between suspension
points — satisfies the invariant that no record holds a live `conn` and a
live `promise` simultaneously: a successful resolution writes `conn` and
clears `promise` in one `Map.set`, i.e. one observable step. -/
theorem C8_handle_pending_exclusive (ops : List RegOp) :
    registryOk (runOps ops []).1 = true ∧
    (runOps ops []).2.all registryOk = true :=
  runOps_registryOk ops [] rfl

end MongoConnect
